import Mathlib

/-
Verification of the timer / scheduler core of the repository
Embedded-Systems-and-IOT-Assignments (MiniTimerOne.cpp, Scheduler.cpp).

The C++ sources are shallowly embedded: the AVR registers touched by
MiniTimerOne together with the global interrupt-enable flag and the two
object members form an explicit state record, every mutating operation is
a state transformer, and operations that write multi-byte registers also
return the list of register writes they performed, each tagged with the
interrupt-enable flag that was current at the moment of the write.
Machine integers are Nat with explicit reductions modulo 2^32 (the AVR
unsigned long) and 2^16 (the 16-bit OCR1A / TCNT1 registers) where the
C++ arithmetic can overflow.
-/

namespace EmbSys

/-- 2^32, the modulus of the AVR 32-bit unsigned long arithmetic. -/
def UINT32_MOD : Nat := 4294967296

/-- #define TIMER1_MAX_VALUE 65536UL -/
def TIMER1_MAX_VALUE : Nat := 65536

/-- #define CYCLES_PER_MICROSEC 16 -/
def CYCLES_PER_MICROSEC : Nat := 16

/-- The AVR _BV macro: 1 shifted left by the bit position. -/
def BV (n : Nat) : Nat := 1 <<< n

/-- Bit position of CS10 in TCCR1B. -/
def CS10 : Nat := 0

/-- Bit position of CS11 in TCCR1B. -/
def CS11 : Nat := 1

/-- Bit position of CS12 in TCCR1B. -/
def CS12 : Nat := 2

/-- Bit position of WGM12 in TCCR1B. -/
def WGM12 : Nat := 3

/-- Bit position of OCIE1A in TIMSK1. -/
def OCIE1A : Nat := 1

/-- Interrupt-time callbacks: the distinguished no-op emptyCallback from
MiniTimerOne.cpp, or a user-supplied function pointer identified by a tag. -/
inductive Callback where
  | emptyCallback : Callback
  | fn : Nat → Callback
deriving DecidableEq

/-- The state acted on by MiniTimerOne: the timer-1 hardware registers, the
global interrupt-enable flag (the I bit of SREG, toggled by cli and sei),
and the two data members of the MiniTimerOne object. -/
structure AVRState where
  TCCR1A : Nat
  TCCR1B : Nat
  TCNT1 : Nat
  OCR1A : Nat
  TIMSK1 : Nat
  iFlag : Bool
  clockSelectBits : Nat
  isrCallback : Callback
deriving DecidableEq

/-- Registers whose writes are multi-byte (wider than the atomic access width). -/
inductive Reg where
  | OCR1A : Reg
  | TCNT1 : Reg
deriving DecidableEq

/-- A record of one multi-byte register write: which register, the value
written, and the global interrupt-enable flag at the moment of the write. -/
structure WriteEv where
  reg : Reg
  value : Nat
  iFlagAtWrite : Bool
deriving DecidableEq

/-- cli(): clear the global interrupt-enable flag. -/
def cli (s : AVRState) : AVRState := { s with iFlag := false }

/-- sei(): set the global interrupt-enable flag. -/
def sei (s : AVRState) : AVRState := { s with iFlag := true }

/-- const int prescalerValues[] = \x7b 1, 8, 64, 256, 1024 \x7d -/
def prescalerValues : List Nat := [1, 8, 64, 256, 1024]

/-- const unsigned int csBitsValues[], the clock-select bit patterns paired
with the prescaler factors, exactly as in MiniTimerOne.cpp. -/
def csBitsValues : List Nat :=
  [BV CS10, BV CS11, BV CS11 ||| BV CS10, BV CS12, BV CS12 ||| BV CS10]

/-- The two source arrays zipped: the table the setPeriod loop scans. -/
def prescalerTable : List (Nat × Nat) := prescalerValues.zip csBitsValues

/-- The `cycles` local of setPeriod: CYCLES_PER_MICROSEC * period computed
in 32-bit unsigned arithmetic, hence reduced modulo 2^32. -/
def cyclesFor (period : Nat) : Nat := (CYCLES_PER_MICROSEC * period) % UINT32_MOD

/-- The for loop of MiniTimerOne::setPeriod: scan the prescaler table in
order; at the first entry with cycles < TIMER1_MAX_VALUE * prescaler, store
the clock-select bits, then cli, write OCR1A (16-bit), then sei, and stop
(timerSet becomes true). Returns the new state, the register writes
performed, and the final timerSet flag. -/
def setPeriodLoop (s : AVRState) (cycles : Nat) :
    List (Nat × Nat) → AVRState × List WriteEv × Bool
  | [] => (s, [], false)
  | (presc, cs) :: rest =>
    if cycles < TIMER1_MAX_VALUE * presc then
      let s1 := { s with clockSelectBits := cs }
      let s2 := cli s1
      let v := (cycles / presc) % 65536
      let s3 := { s2 with OCR1A := v }
      let s4 := sei s3
      (s4, [⟨Reg.OCR1A, v, s2.iFlag⟩], true)
    else
      setPeriodLoop s cycles rest

/-- MiniTimerOne::setPeriod: compute cycles, scan the table; if no entry
matched (timerSet still false), fall back to the largest prescaler bits and
clamp OCR1A to TIMER1_MAX_VALUE - 1, again inside cli/sei. -/
def setPeriod (s : AVRState) (period : Nat) : AVRState × List WriteEv :=
  let cycles := cyclesFor period
  let r := setPeriodLoop s cycles prescalerTable
  if r.2.2 then
    (r.1, r.2.1)
  else
    let s1 := { r.1 with clockSelectBits := BV CS12 ||| BV CS10 }
    let s2 := cli s1
    let v := (TIMER1_MAX_VALUE - 1) % 65536
    let s3 := { s2 with OCR1A := v }
    let s4 := sei s3
    (s4, r.2.1 ++ [⟨Reg.OCR1A, v, s2.iFlag⟩])

/-- MiniTimerOne::attachInterrupt: install the callback and OR the OCIE1A
bit into TIMSK1. -/
def attachInterrupt (s : AVRState) (isr : Callback) : AVRState :=
  { s with isrCallback := isr, TIMSK1 := s.TIMSK1 ||| BV OCIE1A }

/-- MiniTimerOne::detachInterrupt: write zero to the whole TIMSK1 register
and reset the callback to emptyCallback. -/
def detachInterrupt (s : AVRState) : AVRState :=
  { s with TIMSK1 := 0, isrCallback := Callback.emptyCallback }

/-- MiniTimerOne::start: OR the stored clock-select bits into TCCR1B. -/
def start (s : AVRState) : AVRState :=
  { s with TCCR1B := s.TCCR1B ||| s.clockSelectBits }

/-- MiniTimerOne::stop: TCCR1B back to just the WGM12 mode bit. -/
def stop (s : AVRState) : AVRState :=
  { s with TCCR1B := BV WGM12 }

/-- MiniTimerOne::reset: cli, zero the 16-bit counter TCNT1, sei. -/
def reset (s : AVRState) : AVRState × List WriteEv :=
  let s1 := cli s
  let s2 := { s1 with TCNT1 := 0 }
  let s3 := sei s2
  (s3, [⟨Reg.TCNT1, 0, s1.iFlag⟩])

/-- MiniTimerOne::getCallback. -/
def getCallback (s : AVRState) : Callback := s.isrCallback

/-- MiniTimerOne::init: set CTC mode, clear TCCR1A and TIMSK1, then zero
the counter inside cli/sei. -/
def timerInit (s : AVRState) : AVRState × List WriteEv :=
  let s1 := { s with TCCR1B := BV WGM12, TCCR1A := 0, TIMSK1 := 0 }
  let s2 := cli s1
  let s3 := { s2 with TCNT1 := 0 }
  let s4 := sei s3
  (s4, [⟨Reg.TCNT1, 0, s2.iFlag⟩])

/-- A power-on state: all registers zero, interrupts enabled, the object
default-constructed (clockSelectBits 0, emptyCallback). -/
def initState : AVRState :=
  ⟨0, 0, 0, 0, 0, true, 0, Callback.emptyCallback⟩

/-- Decidable form of: every recorded multi-byte write happened while the
global interrupt-enable flag was clear. -/
def allWritesMasked (evs : List WriteEv) : Bool :=
  evs.all (fun ev => ev.iFlagAtWrite == false)

/-- The prescaler factor at position i of the source table. -/
def prescAt (i : Nat) : Nat := prescalerValues.getD i 0

/-- The clock-select bit pattern at position i of the source table. -/
def csAt (i : Nat) : Nat := csBitsValues.getD i 0

/-- A C++ object pointer: null or a pointer to a valid object. -/
inductive CppPtr (α : Type) where
  | null : CppPtr α
  | valid : α → CppPtr α
deriving DecidableEq

/-- Dereferencing a pointer yields the object only when the pointer is
valid; dereferencing null is the fault case, modelled as none. -/
def CppPtr.deref : CppPtr α → Option α
  | CppPtr.null => none
  | CppPtr.valid a => some a

/-- The static member MiniTimerOne::SINGLETON, declared with an empty
initializer, hence value-initialized to the null pointer; no statement in
MiniTimerOne.cpp ever assigns it. -/
def SINGLETON : CppPtr AVRState := CppPtr.null

/-- MiniTimerOne::getInstance: returns SINGLETON. -/
def getInstance : CppPtr AVRState := SINGLETON

/-- The file-scope definition of the alias MiniTimer1, copy-initialized by
dereferencing the pointer returned by getInstance. -/
def MiniTimer1 : Option AVRState := (getInstance).deref

/-- The ISR for TIMER1_COMPA_vect calls the callback obtained from
MiniTimer1 via getCallback; it is meaningful only if MiniTimer1 denotes a
valid object. -/
def ISR_TIMER1_COMPA_vect : Option Callback := MiniTimer1.map getCallback

/-- Claim C1: for every requested period P with P * 16 strictly below
counterMax * 1024, setPeriod selects the smallest prescaler of the table
satisfying cycles < counterMax * prescaler (first match of the linear scan),
records that prescaler's clock-select bits, and sets the compare value to
(P * 16) / prescaler with integer division. -/
theorem setPeriod_smallest_prescaler (s : AVRState) (P : Nat)
    (h : CYCLES_PER_MICROSEC * P < TIMER1_MAX_VALUE * 1024) :
    ∃ i : Nat, i < 5 ∧
      CYCLES_PER_MICROSEC * P < TIMER1_MAX_VALUE * prescAt i ∧
      (∀ j : Nat, j < i → TIMER1_MAX_VALUE * prescAt j ≤ CYCLES_PER_MICROSEC * P) ∧
      (setPeriod s P).1.clockSelectBits = csAt i ∧
      (setPeriod s P).1.OCR1A = CYCLES_PER_MICROSEC * P / prescAt i := by
  simp only [CYCLES_PER_MICROSEC, TIMER1_MAX_VALUE] at h ⊢
  have hcy : cyclesFor P = 16 * P := by
    simp only [cyclesFor, CYCLES_PER_MICROSEC, UINT32_MOD]
    omega
  by_cases h1 : 16 * P < 65536
  · refine ⟨0, by norm_num, ?_, ?_, ?_, ?_⟩
    · simpa [prescAt, prescalerValues] using h1
    · intro j hj; omega
    · simp [setPeriod, hcy, setPeriodLoop, prescalerTable, prescalerValues,
        csBitsValues, csAt, TIMER1_MAX_VALUE, cli, sei, h1]
    · simp [setPeriod, hcy, setPeriodLoop, prescalerTable, prescalerValues,
        csBitsValues, prescAt, TIMER1_MAX_VALUE, cli, sei, h1] <;> omega
  · by_cases h2 : 16 * P < 65536 * 8
    · refine ⟨1, by norm_num, ?_, ?_, ?_, ?_⟩
      · simpa [prescAt, prescalerValues] using h2
      · intro j hj
        interval_cases j
        simpa [prescAt, prescalerValues] using h1
      · simp [setPeriod, hcy, setPeriodLoop, prescalerTable, prescalerValues,
          csBitsValues, csAt, TIMER1_MAX_VALUE, cli, sei, h1, h2]
      · simp [setPeriod, hcy, setPeriodLoop, prescalerTable, prescalerValues,
          csBitsValues, prescAt, TIMER1_MAX_VALUE, cli, sei, h1, h2] <;> omega
    · by_cases h3 : 16 * P < 65536 * 64
      · refine ⟨2, by norm_num, ?_, ?_, ?_, ?_⟩
        · simpa [prescAt, prescalerValues] using h3
        · intro j hj
          interval_cases j <;> simp [prescAt, prescalerValues] <;> omega
        · simp [setPeriod, hcy, setPeriodLoop, prescalerTable, prescalerValues,
            csBitsValues, csAt, TIMER1_MAX_VALUE, cli, sei, h1, h2, h3]
        · simp [setPeriod, hcy, setPeriodLoop, prescalerTable, prescalerValues,
            csBitsValues, prescAt, TIMER1_MAX_VALUE, cli, sei, h1, h2, h3] <;> omega
      · by_cases h4 : 16 * P < 65536 * 256
        · refine ⟨3, by norm_num, ?_, ?_, ?_, ?_⟩
          · simpa [prescAt, prescalerValues] using h4
          · intro j hj
            interval_cases j <;> simp [prescAt, prescalerValues] <;> omega
          · simp [setPeriod, hcy, setPeriodLoop, prescalerTable, prescalerValues,
              csBitsValues, csAt, TIMER1_MAX_VALUE, cli, sei, h1, h2, h3, h4]
          · simp [setPeriod, hcy, setPeriodLoop, prescalerTable, prescalerValues,
              csBitsValues, prescAt, TIMER1_MAX_VALUE, cli, sei, h1, h2, h3, h4] <;> omega
        · refine ⟨4, by norm_num, ?_, ?_, ?_, ?_⟩
          · simpa [prescAt, prescalerValues] using h
          · intro j hj
            interval_cases j <;> simp [prescAt, prescalerValues] <;> omega
          · have h5 : 16 * P < 67108864 := by omega
            simp [setPeriod, hcy, setPeriodLoop, prescalerTable, prescalerValues,
              csBitsValues, csAt, TIMER1_MAX_VALUE, cli, sei, h1, h2, h3, h4, h5]
          · have h5 : 16 * P < 67108864 := by omega
            simp [setPeriod, hcy, setPeriodLoop, prescalerTable, prescalerValues,
              csBitsValues, prescAt, TIMER1_MAX_VALUE, cli, sei, h1, h2, h3, h4, h5] <;> omega

/-- Witness for C1: at P = 1000 the hypothesis holds, the selected index is
forced to 0 by minimality, and the configuration is prescaler-1 bits with
compare value 16000. -/
theorem setPeriod_smallest_prescaler_witness :
    (setPeriod initState 1000).1.clockSelectBits = 1 ∧
    (setPeriod initState 1000).1.OCR1A = 16000 := by
  obtain ⟨i, hi5, hsat, hmin, hcs, hoc⟩ :=
    setPeriod_smallest_prescaler initState 1000 (by norm_num [CYCLES_PER_MICROSEC, TIMER1_MAX_VALUE])
  have hi0 : i = 0 := by
    by_contra hne
    have := hmin 0 (by omega)
    simp [prescAt, prescalerValues, TIMER1_MAX_VALUE, CYCLES_PER_MICROSEC] at this
  subst hi0
  simp only [csAt, csBitsValues, prescAt, prescalerValues, CYCLES_PER_MICROSEC,
    BV, CS10, List.getD] at hcs hoc
  exact ⟨by simpa using hcs, by simpa using hoc⟩

/-- Claim C2 counterexample: P = 268435456 satisfies the claim's hypothesis
16 * P ≥ counterMax * 1024, yet the 32-bit product wraps to 0, so setPeriod
selects the prescaler-1 clock-select bits with compare value 0 instead of
clamping to counterMax - 1 with the largest prescaler. -/
theorem setPeriod_no_clamp_on_wrap :
    TIMER1_MAX_VALUE * 1024 ≤ CYCLES_PER_MICROSEC * 268435456 ∧
    (setPeriod initState 268435456).1.clockSelectBits = csAt 0 ∧
    (setPeriod initState 268435456).1.OCR1A = 0 ∧
    ¬ ((setPeriod initState 268435456).1.OCR1A = TIMER1_MAX_VALUE - 1 ∧
       (setPeriod initState 268435456).1.clockSelectBits = csAt 4) := by
  refine ⟨by norm_num [TIMER1_MAX_VALUE, CYCLES_PER_MICROSEC], ?_, ?_, ?_⟩ <;> decide

/-- Claim C2 amended: for every requested period P whose true cycle count
16 * P is at least counterMax * 1024 AND still below 2^32 (so the 32-bit
product does not wrap), setPeriod clamps the compare value to
counterMax - 1, records the clock-select bits of the largest prescaler
(1024), and returns normally. -/
theorem setPeriod_clamps (s : AVRState) (P : Nat)
    (h1 : TIMER1_MAX_VALUE * 1024 ≤ CYCLES_PER_MICROSEC * P)
    (h2 : CYCLES_PER_MICROSEC * P < UINT32_MOD) :
    (setPeriod s P).1.clockSelectBits = csAt 4 ∧
    (setPeriod s P).1.OCR1A = TIMER1_MAX_VALUE - 1 := by
  simp only [CYCLES_PER_MICROSEC, TIMER1_MAX_VALUE, UINT32_MOD] at h1 h2
  have hcy : cyclesFor P = 16 * P := by
    simp only [cyclesFor, CYCLES_PER_MICROSEC, UINT32_MOD]
    omega
  have c1 : ¬ 16 * P < 65536 := by omega
  have c2 : ¬ 16 * P < 524288 := by omega
  have c3 : ¬ 16 * P < 4194304 := by omega
  have c4 : ¬ 16 * P < 16777216 := by omega
  have c5 : ¬ 16 * P < 67108864 := by omega
  simp [setPeriod, hcy, setPeriodLoop, prescalerTable, prescalerValues,
    csBitsValues, csAt, TIMER1_MAX_VALUE, cli, sei, c1, c2, c3, c4, c5]

/-- Witness for the amended C2: P = 4194304 gives 16 * P = 2^26 exactly, the
smallest cycle count that no prescaler can represent, and setPeriod clamps. -/
theorem setPeriod_clamps_witness :
    (setPeriod initState 4194304).1.clockSelectBits = csAt 4 ∧
    (setPeriod initState 4194304).1.OCR1A = TIMER1_MAX_VALUE - 1 :=
  setPeriod_clamps initState 4194304
    (by norm_num [TIMER1_MAX_VALUE, CYCLES_PER_MICROSEC])
    (by norm_num [UINT32_MOD, CYCLES_PER_MICROSEC])

/-- Claim C3 counterexample: at P = 4096 the cycle count 16 * P equals
counterMax * 1 exactly; because the comparison is a strict less-than the
first table entry is rejected and setPeriod selects the prescaler-8
clock-select bits, not the prescaler-1 bits the claim states. -/
theorem setPeriod_boundary_counterexample :
    CYCLES_PER_MICROSEC * 4096 = TIMER1_MAX_VALUE * 1 ∧
    (setPeriod initState 4096).1.clockSelectBits ≠ csAt 0 ∧
    (setPeriod initState 4096).1.clockSelectBits = csAt 1 := by
  refine ⟨by norm_num [TIMER1_MAX_VALUE, CYCLES_PER_MICROSEC], ?_, ?_⟩ <;> decide

/-- Claim C3 amended: for a requested period whose cycle count 16 * P is
exactly counterMax * 1, the strict less-than comparison rejects prescaler 1
and setPeriod selects prescaler 8, with compare value counterMax / 8. -/
theorem setPeriod_boundary_prescaler8 (s : AVRState) (P : Nat)
    (h : CYCLES_PER_MICROSEC * P = TIMER1_MAX_VALUE * 1) :
    (setPeriod s P).1.clockSelectBits = csAt 1 ∧
    (setPeriod s P).1.OCR1A = TIMER1_MAX_VALUE / 8 := by
  simp only [CYCLES_PER_MICROSEC, TIMER1_MAX_VALUE, mul_one] at h
  have hcy : cyclesFor P = 65536 := by
    simp only [cyclesFor, CYCLES_PER_MICROSEC, UINT32_MOD]
    omega
  simp [setPeriod, hcy, setPeriodLoop, prescalerTable, prescalerValues,
    csBitsValues, csAt, TIMER1_MAX_VALUE, cli, sei]

/-- Witness for the amended C3: P = 4096 hits the boundary and the selected
configuration is prescaler 8 with compare value 8192. -/
theorem setPeriod_boundary_prescaler8_witness :
    (setPeriod initState 4096).1.clockSelectBits = csAt 1 ∧
    (setPeriod initState 4096).1.OCR1A = TIMER1_MAX_VALUE / 8 :=
  setPeriod_boundary_prescaler8 initState 4096
    (by norm_num [TIMER1_MAX_VALUE, CYCLES_PER_MICROSEC])

/-- Claim C4 counterexample: starting from a state with global interrupts
DISABLED, both setPeriod and reset exit with global interrupts ENABLED (the
code ends its critical sections with an unconditional sei), so the
interrupt-enable flag does not equal its entry value. -/
theorem cli_sei_not_restoring :
    ({ initState with iFlag := false } : AVRState).iFlag = false ∧
    (setPeriod { initState with iFlag := false } 1000).1.iFlag = true ∧
    (reset { initState with iFlag := false }).1.iFlag = true := by
  refine ⟨rfl, ?_, rfl⟩
  decide

/-- Every register write recorded by the setPeriod loop happens with the
interrupt-enable flag clear. -/
theorem setPeriodLoop_writes_masked (s : AVRState) (cycles : Nat) :
    ∀ tbl : List (Nat × Nat), allWritesMasked (setPeriodLoop s cycles tbl).2.1 = true := by
  intro tbl
  induction tbl with
  | nil => rfl
  | cons p rest ih =>
    obtain ⟨presc, cs⟩ := p
    by_cases hc : cycles < TIMER1_MAX_VALUE * presc
    · simp [setPeriodLoop, hc, allWritesMasked, cli]
    · simpa [setPeriodLoop, hc] using ih

/-- If the setPeriod loop set the timer, it finished with a sei, so the
interrupt-enable flag is set in its final state. -/
theorem setPeriodLoop_iFlag (s : AVRState) (cycles : Nat) :
    ∀ tbl : List (Nat × Nat), (setPeriodLoop s cycles tbl).2.2 = true →
      (setPeriodLoop s cycles tbl).1.iFlag = true := by
  intro tbl
  induction tbl with
  | nil => intro hfalse; simpa [setPeriodLoop] using hfalse
  | cons p rest ih =>
    obtain ⟨presc, cs⟩ := p
    by_cases hc : cycles < TIMER1_MAX_VALUE * presc
    · intro _; simp [setPeriodLoop, hc, sei]
    · intro hset
      simp only [setPeriodLoop, hc, if_false] at hset ⊢
      exact ih hset

/-- Claim C4 amended: for every initial state, setPeriod and reset perform
all their multi-byte register writes (compare register, counter register)
with global interrupts disabled, but on exit the global interrupt-enable
flag is unconditionally set (sei), NOT restored to its entry value: calling
either operation with interrupts disabled leaves them enabled afterwards. -/
theorem setPeriod_reset_critical_section (s : AVRState) (P : Nat) :
    allWritesMasked (setPeriod s P).2 = true ∧
    (setPeriod s P).1.iFlag = true ∧
    allWritesMasked (reset s).2 = true ∧
    (reset s).1.iFlag = true := by
  refine ⟨?_, ?_, rfl, rfl⟩
  · by_cases hset : (setPeriodLoop s (cyclesFor P) prescalerTable).2.2 = true
    · simpa [setPeriod, hset] using
        setPeriodLoop_writes_masked s (cyclesFor P) prescalerTable
    · have hm := setPeriodLoop_writes_masked s (cyclesFor P) prescalerTable
      simp only [Bool.not_eq_true] at hset
      simp [setPeriod, hset, allWritesMasked, cli, sei] at hm ⊢
      exact hm
  · by_cases hset : (setPeriodLoop s (cyclesFor P) prescalerTable).2.2 = true
    · simpa [setPeriod, hset] using
        setPeriodLoop_iFlag s (cyclesFor P) prescalerTable hset
    · simp only [Bool.not_eq_true] at hset
      simp [setPeriod, hset, cli, sei]

/-- Claim C7: attachInterrupt and detachInterrupt are idempotent on the
whole state (callback and interrupt-enable register included), a read via
getCallback after attachInterrupt(fn) returns exactly fn, and after
detachInterrupt it returns the no-op callback. -/
theorem attach_detach_idempotent (s : AVRState) (c : Callback) :
    attachInterrupt (attachInterrupt s c) c = attachInterrupt s c ∧
    detachInterrupt (detachInterrupt s) = detachInterrupt s ∧
    getCallback (attachInterrupt s c) = c ∧
    getCallback (detachInterrupt s) = Callback.emptyCallback := by
  refine ⟨?_, rfl, rfl, rfl⟩
  simp only [attachInterrupt, Nat.or_assoc]
  norm_num

/-- Claim C8: the static SINGLETON member is value-initialized to the null
pointer and never reassigned, so getInstance returns null, the file-scope
initialization of MiniTimer1 dereferences a null pointer (the fault case,
none), and the callback the ISR would call through MiniTimer1 is reachable
only via that invalid object (also none). -/
theorem getInstance_null :
    getInstance = CppPtr.null ∧ MiniTimer1 = none ∧ ISR_TIMER1_COMPA_vect = none :=
  ⟨rfl, rfl, rfl⟩

/-- Claim C9: setPeriod computes the cycle count as 16 * period reduced
modulo 2^32; for every period above 268435455 microseconds the product
wraps (the computed cycles differ from the true product), and for some such
period (268435456) setPeriod selects the smallest prescaler with a wrapped
compare value of 0 instead of clamping to counterMax - 1. -/
theorem setPeriod_cycles_wrap (s : AVRState) (P : Nat)
    (h1 : 268435455 < P) (h2 : P < UINT32_MOD) :
    cyclesFor P ≠ CYCLES_PER_MICROSEC * P ∧
    ∃ Q : Nat, 268435455 < Q ∧
      (setPeriod s Q).1.clockSelectBits = csAt 0 ∧
      (setPeriod s Q).1.OCR1A = 0 ∧
      (setPeriod s Q).1.OCR1A ≠ TIMER1_MAX_VALUE - 1 := by
  constructor
  · simp only [cyclesFor, CYCLES_PER_MICROSEC, UINT32_MOD] at h2 ⊢
    omega
  · refine ⟨268435456, by norm_num, ?_, ?_, ?_⟩
    · have hcy : cyclesFor 268435456 = 0 := by decide
      simp [setPeriod, hcy, setPeriodLoop, prescalerTable, prescalerValues,
        csBitsValues, csAt, TIMER1_MAX_VALUE, cli, sei]
    · have hcy : cyclesFor 268435456 = 0 := by decide
      simp [setPeriod, hcy, setPeriodLoop, prescalerTable, prescalerValues,
        csBitsValues, TIMER1_MAX_VALUE, cli, sei]
    · have hcy : cyclesFor 268435456 = 0 := by decide
      simp [setPeriod, hcy, setPeriodLoop, prescalerTable, prescalerValues,
        csBitsValues, TIMER1_MAX_VALUE, cli, sei]

/-- Witness for C9: at P = 300000000 the hypotheses hold and the computed
cycle count differs from the true 16 * P. -/
theorem setPeriod_cycles_wrap_witness :
    cyclesFor 300000000 ≠ CYCLES_PER_MICROSEC * 300000000 :=
  (setPeriod_cycles_wrap initState 300000000 (by norm_num)
    (by norm_num [UINT32_MOD])).1

/-- Claim C10: detachInterrupt zeroes the whole TIMSK1 register while
attachInterrupt only ORs in the OCIE1A bit, so whenever TIMSK1 has any
enable bit other than OCIE1A set (mask 253 covers all bits of the 8-bit
register except bit 1), detachInterrupt after attachInterrupt does not
restore the register to its prior value. -/
theorem detach_not_inverse_of_attach (s : AVRState) (c : Callback)
    (h : s.TIMSK1 &&& 253 ≠ 0) :
    (attachInterrupt s c).TIMSK1 = s.TIMSK1 ||| BV OCIE1A ∧
    (detachInterrupt s).TIMSK1 = 0 ∧
    (detachInterrupt (attachInterrupt s c)).TIMSK1 = 0 ∧
    (detachInterrupt (attachInterrupt s c)).TIMSK1 ≠ s.TIMSK1 := by
  refine ⟨rfl, rfl, rfl, ?_⟩
  simp only [detachInterrupt]
  intro h0
  apply h
  rw [← h0]
  rfl

/-- Witness for C10: for a state with only the TOIE1 bit (bit 0) set in
TIMSK1, an attachInterrupt followed by a detachInterrupt leaves TIMSK1 at
0 instead of restoring the TOIE1 bit. -/
theorem detach_not_inverse_of_attach_witness :
    ({ initState with TIMSK1 := 1 } : AVRState).TIMSK1 &&& 253 ≠ 0 ∧
    (detachInterrupt (attachInterrupt { initState with TIMSK1 := 1 } Callback.emptyCallback)).TIMSK1 ≠
      ({ initState with TIMSK1 := 1 } : AVRState).TIMSK1 :=
  ⟨by decide,
   (detach_not_inverse_of_attach { initState with TIMSK1 := 1 }
     Callback.emptyCallback (by decide)).2.2.2⟩

/-- #define MAX_TASKS 10 -/
def MAX_TASKS : Nat := 10

/-- Modelled from the spec: the Task interface (Task.h is not under src).
A task holds internal state; updateAndCheckTime(basePeriod) accumulates
elapsed time in that state and reports whether the task is due; tick()
performs the periodic work, possibly mutating the state. -/
structure SchedTask (σ : Type) where
  state : σ
  updateAndCheckTime : σ → Int → Bool × σ
  tick : σ → σ

/-- The Scheduler state: the base period set by init and the registered
tasks in registration order (the first nTasks slots of the 10-slot array;
slots past nTasks are never read, so the list is the array's live prefix). -/
structure Scheduler (σ : Type) where
  basePeriod : Int
  taskList : List (SchedTask σ)

/-- Scheduler::init: record the base period and clear the task table.
(The owned Timer object, Timer.h not being under src, is modelled from the
spec purely through the waitTick event emitted by schedule.) -/
def schedInit (bp : Int) : Scheduler σ :=
  { basePeriod := bp, taskList := [] }

/-- Scheduler::addTask: append the task at the next free position if
nTasks < MAX_TASKS - 1, returning true; otherwise return false and leave
the table untouched. -/
def addTask (sch : Scheduler σ) (t : SchedTask σ) : Bool × Scheduler σ :=
  if sch.taskList.length < MAX_TASKS - 1 then
    (true, { sch with taskList := sch.taskList ++ [t] })
  else
    (false, sch)

/-- Observable events of one schedule() pass: the wait for the base tick,
the updateAndCheckTime call on the task at a given index, and the tick()
call on the task at a given index. -/
inductive SchedEvent where
  | waitTick : SchedEvent
  | update : Nat → SchedEvent
  | tickEv : Nat → SchedEvent
deriving DecidableEq

/-- The for loop of Scheduler::schedule starting at index i: call
updateAndCheckTime(basePeriod) on each task in order and, when it returns
true, immediately call tick() on that same task before moving on. Returns
the updated tasks and the emitted event trace. -/
def scheduleLoop (bp : Int) : List (SchedTask σ) → Nat → List (SchedTask σ) × List SchedEvent
  | [], _ => ([], [])
  | t :: rest, i =>
    let r := t.updateAndCheckTime t.state bp
    let t1 : SchedTask σ :=
      if r.1 then { t with state := t.tick r.2 } else { t with state := r.2 }
    let rr := scheduleLoop bp rest (i + 1)
    (t1 :: rr.1,
      (SchedEvent.update i :: if r.1 then [SchedEvent.tickEv i] else []) ++ rr.2)

/-- Scheduler::schedule: wait for the next base tick (Modelled from the
spec: Timer::waitForNextTick, Timer.h not being under src, blocks until one
base tick elapsed and is recorded as the waitTick event), then run the task
loop from index 0. -/
def schedule (sch : Scheduler σ) : Scheduler σ × List SchedEvent :=
  let rr := scheduleLoop sch.basePeriod sch.taskList 0
  ({ sch with taskList := rr.1 }, SchedEvent.waitTick :: rr.2)

/-- The per-task event segment demanded by the claim: one update event,
immediately followed by a tick event exactly when updateAndCheckTime on the
task's current state returns true. -/
def dueSegment (bp : Int) (p : Nat × SchedTask σ) : List SchedEvent :=
  SchedEvent.update p.1 ::
    (if (p.2.updateAndCheckTime p.2.state bp).1 then [SchedEvent.tickEv p.1] else [])

/-- The claimed shape of one schedule() pass: the per-task segments of all
registered tasks, concatenated in registration order. -/
def scheduleTraceSpec (bp : Int) (tasks : List (SchedTask σ)) : List SchedEvent :=
  tasks.enum.bind (dueSegment bp)

theorem scheduleLoop_trace (bp : Int) :
    ∀ (tasks : List (SchedTask σ)) (k : Nat),
      (scheduleLoop bp tasks k).2 = (tasks.enumFrom k).bind (dueSegment bp) := by
  intro tasks
  induction tasks with
  | nil => intro k; simp [scheduleLoop]
  | cons t rest ih =>
    intro k
    simp [scheduleLoop, List.enumFrom, dueSegment, ih (k + 1)]

theorem scheduleLoop_update_count (bp : Int) (i : Nat) :
    ∀ (tasks : List (SchedTask σ)) (k : Nat),
      ((scheduleLoop bp tasks k).2.count (SchedEvent.update i)) =
        if k ≤ i ∧ i < k + tasks.length then 1 else 0 := by
  intro tasks
  induction tasks with
  | nil =>
    intro k
    simp only [scheduleLoop, List.count_nil, List.length_nil, Nat.add_zero]
    split
    · omega
    · rfl
  | cons t rest ih =>
    intro k
    by_cases hdue : (t.updateAndCheckTime t.state bp).1
    · simp [scheduleLoop, hdue, List.count_cons, List.count_append, ih (k + 1)]
      split_ifs <;> simp_all <;> omega
    · simp [scheduleLoop, hdue, List.count_cons, List.count_append, ih (k + 1)]
      split_ifs <;> simp_all <;> omega

/-- Claim C5: each schedule() call, after the wait for one base tick,
iterates the task table in registration order, calling updateAndCheckTime
exactly once per registered task and invoking tick() immediately after a
true result, before the next task is examined: the event trace is exactly
the waitTick followed by the in-order concatenation of per-task segments,
and each registered task's update event occurs exactly once. -/
theorem schedule_trace (sch : Scheduler σ) :
    (schedule sch).2 =
      SchedEvent.waitTick :: scheduleTraceSpec sch.basePeriod sch.taskList ∧
    ∀ i : Nat, i < sch.taskList.length →
      ((schedule sch).2.count (SchedEvent.update i)) = 1 := by
  constructor
  · simp [schedule, scheduleTraceSpec, List.enum,
      scheduleLoop_trace sch.basePeriod sch.taskList 0]
  · intro i hi
    simp [schedule, List.count_cons,
      scheduleLoop_update_count sch.basePeriod i sch.taskList 0]
    omega

/-- A demonstration task that is due on every base tick. -/
def demoTaskDue : SchedTask Nat :=
  { state := 0, updateAndCheckTime := fun st _ => (true, st + 1), tick := fun st => st + 100 }

/-- A demonstration task that is never due. -/
def demoTaskIdle : SchedTask Nat :=
  { state := 0, updateAndCheckTime := fun st _ => (false, st + 1), tick := fun st => st }

/-- A demonstration scheduler with two registered tasks. -/
def demoSched : Scheduler Nat :=
  { basePeriod := 1000, taskList := [demoTaskDue, demoTaskIdle] }

/-- A demonstration scheduler whose table is at capacity (9 tasks). -/
def demoSchedFull : Scheduler Nat :=
  { basePeriod := 1000, taskList := List.replicate 9 demoTaskIdle }

/-- Witness for C5: on the two-task demonstration scheduler the trace has
the claimed shape and task 0's update event occurs exactly once. -/
theorem schedule_trace_witness :
    (schedule demoSched).2 =
      SchedEvent.waitTick :: scheduleTraceSpec demoSched.basePeriod demoSched.taskList ∧
    ((schedule demoSched).2.count (SchedEvent.update 0)) = 1 :=
  ⟨(schedule_trace demoSched).1,
   (schedule_trace demoSched).2 0 (by simp [demoSched])⟩

/-- Claim C6: addTask returns true and appends the task at the next free
position while fewer than MAX_TASKS - 1 = 9 tasks are registered; at
capacity it returns false and leaves the scheduler — task sequence, length
and order — completely unchanged. -/
theorem addTask_capacity (sch : Scheduler σ) (t : SchedTask σ) :
    (sch.taskList.length < MAX_TASKS - 1 →
      (addTask sch t).1 = true ∧
      (addTask sch t).2.taskList = sch.taskList ++ [t] ∧
      (addTask sch t).2.basePeriod = sch.basePeriod) ∧
    (MAX_TASKS - 1 ≤ sch.taskList.length →
      (addTask sch t).1 = false ∧ (addTask sch t).2 = sch) := by
  constructor
  · intro h
    simp [addTask, h]
  · intro h
    have hn : ¬ sch.taskList.length < MAX_TASKS - 1 := by omega
    simp [addTask, hn]

/-- Witness for C6: the two-task scheduler accepts a new task by appending
it; the nine-task scheduler rejects it and is returned unchanged. -/
theorem addTask_capacity_witness :
    ((addTask demoSched demoTaskDue).1 = true ∧
     (addTask demoSched demoTaskDue).2.taskList = demoSched.taskList ++ [demoTaskDue] ∧
     (addTask demoSched demoTaskDue).2.basePeriod = demoSched.basePeriod) ∧
    ((addTask demoSchedFull demoTaskDue).1 = false ∧
     (addTask demoSchedFull demoTaskDue).2 = demoSchedFull) :=
  ⟨(addTask_capacity demoSched demoTaskDue).1 (by simp [demoSched, MAX_TASKS]),
   (addTask_capacity demoSchedFull demoTaskDue).2 (by simp [demoSchedFull, MAX_TASKS])⟩

end EmbSys
